import Mathlib

/-!
Verification of the two-stage meeting-summariser pipeline (`src/app.py`).

The script stages an uploaded audio file to a temporary path, sends it to a
remote transcription service, sends the resulting transcript to a remote chat
service for summarisation, renders transcript/summary/errors in the UI, and
finally attempts to delete the staged file.

Shallow embedding: file names and paths are `List Char`, file contents are
`List Nat` (bytes), the filesystem is an association list, and the two remote
services are oracles carried by an `Env` record (one value per run, since the
script performs at most one call per service per run).  UI rendering is
modelled as an append-only log of messages.  `time.sleep(1)` in
`transcribe_audio` is real-time behaviour with no effect on any value and is
not modelled.
-/

/-- One rendered Streamlit element, in chronological order of rendering.
`info`/`success` model updates of the single `processing_message` placeholder. -/
inductive UiMsg where
  | info (s : String)
  | success (s : String)
  | error (s : String)
  | warning (s : String)
  | subheader (s : String)
  | textArea (label : String) (content : String)
  | write (s : String)
deriving DecidableEq

/-- Outcome of the remote transcription call (`client.audio.transcriptions.create`
with `response_format="text"`): either the HTTP/auth/network layer raises, or a
plain-text transcript string is returned. -/
inductive TResp where
  | raise (msg : String)
  | ok (text : String)
deriving DecidableEq

/-- Outcome of the remote chat-completion call: either it raises, or it returns
a first choice whose `message.content` is an optional string (`none` models a
null content field). -/
inductive CResp where
  | raise (msg : String)
  | ok (content : Option String)
deriving DecidableEq

/-- One message of a chat request. -/
structure ChatMessage where
  role : String
  content : String
deriving DecidableEq

/-- The request payload built by `summarize_transcript` for
`client.chat.completions.create`.  `temperature` is modelled as a rational. -/
structure ChatRequest where
  model : String
  messages : List ChatMessage
  temperature : ℚ
  max_tokens : ℕ
deriving DecidableEq

/-- The uploaded file as seen by the script: original filename (used only for
its extension) and the byte buffer from `getbuffer()`. -/
structure UploadedFile where
  name : List Char
  content : List Nat
deriving DecidableEq

/-- The filesystem: an association list from paths to byte contents; a write
prepends, reads find the most recent entry. -/
abbrev FS := List (List Char × List Nat)

/-- Read a file: `some` content iff the path exists (i.e. is readable). -/
def fsRead : FS → List Char → Option (List Nat)
  | [], _ => none
  | (q, c) :: rest, p => if q = p then some c else fsRead rest p

/-- Delete the most recent entry for a path (`Path.unlink`). -/
def fsUnlink : FS → List Char → FS
  | [], _ => []
  | (q, c) :: rest, p => if q = p then rest else (q, c) :: fsUnlink rest p

/-- The external world of one pipeline run: whether the temp-file write raises,
the OS-chosen temp-file name stem (`NamedTemporaryFile` chooses the name, the
script only supplies the suffix), the responses of the two remote services, and
whether `Path.unlink` raises during cleanup. -/
structure Env where
  stagingExn : Option String
  tmpStem : List Char
  transcribeSvc : TResp
  chatSvc : ChatRequest → CResp
  unlinkExn : Option String

/-- The basename of a path: everything after the last slash
(CPython `PurePath.name`). -/
def nameOfL (p : List Char) : List Char :=
  p.foldl (fun acc c => if c = '/' then [] else acc ++ [c]) []

/-- Index (from the front) of the last occurrence of a character, if any
(CPython `str.rfind`, restricted to found/not-found). -/
def rlast (c : Char) : List Char → Option Nat
  | [] => none
  | a :: as =>
    match rlast c as with
    | some i => some (i + 1)
    | none => if a = c then some 0 else none

/-- CPython `PurePath.suffix`: with `name` the basename and `i = name.rfind(".")`,
the suffix is `name[i:]` when `0 < i < len(name) - 1`, else empty. -/
def pathSuffix (p : List Char) : List Char :=
  match rlast '.' (nameOfL p) with
  | none => []
  | some i => if 0 < i ∧ i + 1 < (nameOfL p).length then (nameOfL p).drop i else []

/-- A well-formed `NamedTemporaryFile` stem: non-empty basename, no dot
(mkstemp names are drawn from letters, digits and underscore). -/
def validStem (stem : List Char) : Prop :=
  nameOfL stem ≠ [] ∧ '.' ∉ stem

/-- `save_uploaded_file` (app.py lines 10-18): create a named temporary file
whose suffix is `Path(uploaded_file.name).suffix`, write the buffer, return the
path; on any exception render `st.error` and return `None`.
Returns (path option, updated filesystem, rendered messages). -/
def save_uploaded_file (env : Env) (fs : FS) (up : UploadedFile) :
    Option (List Char) × FS × List UiMsg :=
  match env.stagingExn with
  | some m => (none, fs, [UiMsg.error ("Error saving file: " ++ m)])
  | none =>
    let p := env.tmpStem ++ pathSuffix up.name
    (some p, (p, up.content) :: fs, [])

/-- `transcribe_audio` (app.py lines 20-36): open the staged file, call the
transcription service, raise `ValueError` on an empty result; every exception
is caught and rendered as `st.error("Transcription error: ...")` with `None`
returned.  Result: (transcript option, messages, remote-call count). -/
def transcribe_audio (env : Env) (fs : FS) (p : List Char) :
    Option String × List UiMsg × Nat :=
  match fsRead fs p with
  | none => (none, [UiMsg.error "Transcription error: file not found"], 0)
  | some _ =>
    match env.transcribeSvc with
    | TResp.raise m => (none, [UiMsg.error ("Transcription error: " ++ m)], 1)
    | TResp.ok t =>
      if t = "" then
        (none, [UiMsg.error "Transcription error: Transcription returned empty result"], 1)
      else
        (some t, [], 1)

/-- The fixed instruction template prepended to the transcript (app.py line 48). -/
def summaryPrompt (t : String) : String :=
  "Please summarize the following meeting transcript into 5 key bullet points:\n\n" ++ t

/-- The chat request built by `summarize_transcript` (app.py lines 43-53). -/
def mkChatRequest (t : String) : ChatRequest :=
  { model := "gpt-4-turbo-preview"
    messages := [{ role := "user", content := summaryPrompt t }]
    temperature := 7/10
    max_tokens := 500 }

/-- `summarize_transcript` (app.py lines 38-60): send the templated chat
request, take `choices[0].message.content`, raise `ValueError` when it is
null/empty; every exception is caught and rendered as
`st.error("Summarization error: ...")` with `None` returned.
Result: (summary option, messages, requests actually sent). -/
def summarize_transcript (env : Env) (t : String) :
    Option String × List UiMsg × List ChatRequest :=
  let req := mkChatRequest t
  match env.chatSvc req with
  | CResp.raise m => (none, [UiMsg.error ("Summarization error: " ++ m)], [req])
  | CResp.ok content =>
    match content with
    | none =>
      (none, [UiMsg.error "Summarization error: Summary generation returned empty result"], [req])
    | some s =>
      if s = "" then
        (none, [UiMsg.error "Summarization error: Summary generation returned empty result"], [req])
      else
        (some s, [], [req])

/-- Everything observable about one run of the `if uploaded_file:` block. -/
structure RunResult where
  stagedPath : Option (List Char)
  transcriptShown : Option String
  summaryShown : Option String
  ui : List UiMsg
  transcribeCalls : Nat
  summarizeCalls : Nat
  cleanupCalls : Nat
  sentRequests : List ChatRequest
  fs : FS

/-- The `try` body of the pipeline (app.py lines 78-101): transcribe, render
the transcript, summarize, render the summary or the stage-specific error.
All exceptions are already caught inside the stage functions, so the outer
`except` (line 100) is dead in this model.  `cleanupCalls` is 0: the `finally`
block is accounted for by `runPipeline`. -/
def runBody (env : Env) (fs1 : FS) (p : List Char) : RunResult :=
  match transcribe_audio env fs1 p with
  | (none, uiT, tc) =>
    { stagedPath := some p, transcriptShown := none, summaryShown := none
      ui := uiT ++ [UiMsg.error "Failed to transcribe audio. Please check the file and try again."]
      transcribeCalls := tc, summarizeCalls := 0, cleanupCalls := 0
      sentRequests := [], fs := fs1 }
  | (some t, uiT, tc) =>
    match summarize_transcript env t with
    | (none, uiSm, reqs) =>
      { stagedPath := some p, transcriptShown := some t, summaryShown := none
        ui := uiT ++ [UiMsg.subheader "Transcript", UiMsg.textArea "Full Transcript" t,
                      UiMsg.info "Generating summary..."] ++ uiSm ++
              [UiMsg.error "Failed to generate summary. Please try again."]
        transcribeCalls := tc, summarizeCalls := 1, cleanupCalls := 0
        sentRequests := reqs, fs := fs1 }
    | (some s, uiSm, reqs) =>
      { stagedPath := some p, transcriptShown := some t, summaryShown := some s
        ui := uiT ++ [UiMsg.subheader "Transcript", UiMsg.textArea "Full Transcript" t,
                      UiMsg.info "Generating summary..."] ++ uiSm ++
              [UiMsg.subheader "Summary", UiMsg.write s, UiMsg.success "Processing complete!"]
        transcribeCalls := tc, summarizeCalls := 1, cleanupCalls := 0
        sentRequests := reqs, fs := fs1 }

/-- One full run of the `if uploaded_file:` block (app.py lines 69-110): stage
the upload; when staging returned a path run the `try` body and then the
`finally` cleanup (delete the temp file, warn on failure); when staging
returned `None` only render the failure message — no cleanup is attempted. -/
def runPipeline (env : Env) (fs0 : FS) (up : UploadedFile) : RunResult :=
  match save_uploaded_file env fs0 up with
  | (none, fs1, uiS) =>
    { stagedPath := none, transcriptShown := none, summaryShown := none
      ui := [UiMsg.info "Processing your audio file... Please wait."] ++ uiS ++
            [UiMsg.error "Failed to process uploaded file. Please try again."]
      transcribeCalls := 0, summarizeCalls := 0, cleanupCalls := 0
      sentRequests := [], fs := fs1 }
  | (some p, fs1, uiS) =>
    let b := runBody env fs1 p
    match env.unlinkExn with
    | some m =>
      { b with
        ui := [UiMsg.info "Processing your audio file... Please wait."] ++ uiS ++
              [UiMsg.info "Transcribing audio..."] ++ b.ui ++
              [UiMsg.warning ("Warning: Could not delete temporary file: " ++ m)]
        cleanupCalls := b.cleanupCalls + 1 }
    | none =>
      { b with
        ui := [UiMsg.info "Processing your audio file... Please wait."] ++ uiS ++
              [UiMsg.info "Transcribing audio..."] ++ b.ui
        cleanupCalls := b.cleanupCalls + 1
        fs := fsUnlink b.fs p }

/-- The OpenAI client object: only its `api_key` attribute is observable here. -/
structure Client where
  api_key : String
deriving DecidableEq

/-- Modelled from the openai-python v1 library (external dependency, not part
of this repository): `OpenAI()` reads `OPENAI_API_KEY` from the process
environment; when the variable is absent the constructor raises `OpenAIError`,
and when it is present (even as the empty string) it returns a client whose
`api_key` holds the value. -/
def mkOpenAIClient (envKey : Option String) : Except String Client :=
  match envKey with
  | none =>
    Except.error
      "The api_key client option must be set either by passing api_key to the client or by setting the OPENAI_API_KEY environment variable"
  | some k => Except.ok { api_key := k }

/-- Outcome of one top-to-bottom execution of the script: either an uncaught
exception aborted the run (nothing after the raising line renders), or the
script completed with an optional pipeline result and a flag saying whether
the line-114 API-key error banner was rendered. -/
inductive ScriptOutcome where
  | exn (msg : String)
  | ok (result : Option RunResult) (apiKeyBannerShown : Bool)

/-- One top-to-bottom execution of `app.py`: line 8 constructs the client (an
exception here aborts the script), the upload — when present — drives
`runPipeline`, and lines 112-114 render the API-key banner iff `client.api_key`
is falsy (the empty string). -/
def runScript (envKey : Option String) (upload : Option (Env × UploadedFile))
    (fs0 : FS) : ScriptOutcome :=
  match mkOpenAIClient envKey with
  | Except.error m => ScriptOutcome.exn m
  | Except.ok client =>
    ScriptOutcome.ok (upload.map (fun eu => runPipeline eu.1 fs0 eu.2))
      (client.api_key = "")

/-- Failure causes of the spec state machine (spec section 4.4). -/
inductive Cause where
  | transcriptionFailed
  | emptyTranscription
  | summarizationFailed
  | emptySummary
deriving DecidableEq

/-- States of the spec state machine, collapsed to the terminal view of a run
(spec section 4.4): staging failure keeps the machine in `Idle`; `Done` and
`Failed` are the terminal states proper. -/
inductive SpecState where
  | idle
  | done
  | failed (c : Cause)
deriving DecidableEq

/-- Interpretation of a run as its final spec state: `idle` when staging
failed, `done` when a summary was rendered, otherwise `failed` with the cause
determined by which stage failed and how (spec section 4.4). -/
def runState (env : Env) (fs0 : FS) (up : UploadedFile) : SpecState :=
  let r := runPipeline env fs0 up
  match r.stagedPath with
  | none => SpecState.idle
  | some _ =>
    match r.summaryShown with
    | some _ => SpecState.done
    | none =>
      match r.transcriptShown with
      | none =>
        if env.transcribeSvc = TResp.ok "" then SpecState.failed Cause.emptyTranscription
        else SpecState.failed Cause.transcriptionFailed
      | some t =>
        match env.chatSvc (mkChatRequest t) with
        | CResp.raise _ => SpecState.failed Cause.summarizationFailed
        | CResp.ok _ => SpecState.failed Cause.emptySummary

/-- A concrete upload used by the witnesses (spec section 8, scenario A). -/
def upWav : UploadedFile :=
  { name := "call.wav".data, content := [0, 1, 2] }

/-- Environment of a fully successful run. -/
def envDone : Env :=
  { stagingExn := none
    tmpStem := "/tmp/tmp0001".data
    transcribeSvc := TResp.ok "Hello team, quarterly numbers are up."
    chatSvc := fun _ => CResp.ok (some "- Revenue up")
    unlinkExn := none }

/-- Environment where transcription returns the empty string. -/
def envEmptyT : Env :=
  { envDone with transcribeSvc := TResp.ok "" }

/-- Environment where the summarization call raises a network error. -/
def envChatRaise : Env :=
  { envDone with chatSvc := fun _ => CResp.raise "network error" }

/-- Environment where writing the temp file raises a local I/O error. -/
def envStageFail : Env :=
  { envDone with stagingExn := some "disk full" }

/-- Environment where both services return whitespace-only strings. -/
def envWhitespace : Env :=
  { envDone with
    transcribeSvc := TResp.ok " "
    chatSvc := fun _ => CResp.ok (some " ") }

/-! ### Helper lemmas about `nameOfL`, `rlast` and `pathSuffix` -/

theorem nameOf_foldl_no_slash (q acc : List Char) (h : '/' ∉ q) :
    q.foldl (fun a c => if c = '/' then [] else a ++ [c]) acc = acc ++ q := by
  induction q generalizing acc with
  | nil => simp
  | cons x xs ih =>
    have hx : ¬ (x = '/') := fun hh => h (hh ▸ List.mem_cons_self x xs)
    simp only [List.foldl_cons, if_neg hx]
    rw [ih _ (fun hm => h (List.mem_cons_of_mem _ hm))]
    simp

theorem nameOf_append (p q : List Char) (h : '/' ∉ q) :
    nameOfL (p ++ q) = nameOfL p ++ q := by
  unfold nameOfL
  rw [List.foldl_append]
  exact nameOf_foldl_no_slash q _ h

theorem mem_foldl_nameOf (c : Char) (p : List Char) :
    ∀ acc : List Char,
      c ∈ p.foldl (fun a ch => if ch = '/' then [] else a ++ [ch]) acc →
      c ∈ acc ∨ c ∈ p := by
  induction p with
  | nil => intro acc h; exact Or.inl h
  | cons x xs ih =>
    intro acc h
    simp only [List.foldl_cons] at h
    rcases ih _ h with h1 | h1
    · by_cases hx : x = '/'
      · rw [if_pos hx] at h1
        simp at h1
      · rw [if_neg hx] at h1
        rcases List.mem_append.mp h1 with h2 | h2
        · exact Or.inl h2
        · simp at h2
          exact Or.inr (h2 ▸ List.mem_cons_self x xs)
    · exact Or.inr (List.mem_cons_of_mem _ h1)

theorem mem_of_mem_nameOf (c : Char) (p : List Char) (h : c ∈ nameOfL p) : c ∈ p := by
  rcases mem_foldl_nameOf c p [] h with h1 | h1
  · simp at h1
  · exact h1

theorem rlast_of_not_mem (c : Char) (l : List Char) (h : c ∉ l) : rlast c l = none := by
  induction l with
  | nil => rfl
  | cons a as ih =>
    have ha : ¬ (a = c) := fun hh => h (hh ▸ List.mem_cons_self a as)
    rw [rlast, ih (fun hm => h (List.mem_cons_of_mem _ hm)), if_neg ha]

theorem rlast_append (c : Char) (xs ys : List Char) (j : Nat) (h : rlast c ys = some j) :
    rlast c (xs ++ ys) = some (xs.length + j) := by
  induction xs with
  | nil => simpa using h
  | cons a as ih =>
    simp [List.cons_append, rlast, ih]
    omega

/-- The suffix of a dot-free stem followed by a dotted extension is that
extension. -/
theorem pathSuffix_stem_append (stem e : List Char)
    (hbase : nameOfL stem ≠ []) (hdot : '.' ∉ stem)
    (he : e ≠ []) (hde : '.' ∉ e) (hse : '/' ∉ '.' :: e) :
    pathSuffix (stem ++ '.' :: e) = '.' :: e := by
  have h1 : nameOfL (stem ++ '.' :: e) = nameOfL stem ++ '.' :: e :=
    nameOf_append stem ('.' :: e) hse
  have hdotbase : '.' ∉ nameOfL stem := fun h => hdot (mem_of_mem_nameOf '.' stem h)
  have h2 : rlast '.' ('.' :: e) = some 0 := by
    rw [rlast, rlast_of_not_mem '.' e hde, if_pos rfl]
  have h3 : rlast '.' (nameOfL stem ++ '.' :: e) = some (nameOfL stem).length := by
    simpa using rlast_append '.' (nameOfL stem) ('.' :: e) 0 h2
  have hlen : 0 < (nameOfL stem).length := List.length_pos.mpr hbase
  have helen : 0 < e.length := List.length_pos.mpr he
  have hcond : 0 < (nameOfL stem).length ∧
      (nameOfL stem).length + 1 < (nameOfL stem ++ '.' :: e).length := by
    constructor
    · exact hlen
    · simp only [List.length_append, List.length_cons]
      omega
  simp only [pathSuffix, h1, h3]
  rw [if_pos hcond]
  exact List.drop_left (nameOfL stem) ('.' :: e)

/-! ### Helper lemmas about `runBody` -/

theorem runBody_cleanupCalls (env : Env) (fs1 : FS) (p : List Char) :
    (runBody env fs1 p).cleanupCalls = 0 := by
  unfold runBody
  rcases h : transcribe_audio env fs1 p with ⟨tr, uiT, tc⟩
  cases tr with
  | none => rfl
  | some t =>
    rcases h2 : summarize_transcript env t with ⟨sm, uiSm, reqs⟩
    simp only [h2]
    cases sm <;> rfl

theorem runBody_stagedPath (env : Env) (fs1 : FS) (p : List Char) :
    (runBody env fs1 p).stagedPath = some p := by
  unfold runBody
  rcases h : transcribe_audio env fs1 p with ⟨tr, uiT, tc⟩
  cases tr with
  | none => rfl
  | some t =>
    rcases h2 : summarize_transcript env t with ⟨sm, uiSm, reqs⟩
    simp only [h2]
    cases sm <;> rfl

theorem pipeline_transcribeCalls_le (env : Env) (fs0 : FS) (up : UploadedFile) :
    (runPipeline env fs0 up).transcribeCalls ≤ 1 := by
  cases hs : env.stagingExn with
  | some m => simp [runPipeline, save_uploaded_file, hs]
  | none =>
    cases htr : env.transcribeSvc with
    | raise m =>
      cases hu : env.unlinkExn <;>
        simp [runPipeline, save_uploaded_file, runBody, transcribe_audio, fsRead, hs, htr, hu]
    | ok t =>
      by_cases hte : t = ""
      · cases hu : env.unlinkExn <;>
          simp [runPipeline, save_uploaded_file, runBody, transcribe_audio, fsRead,
                hs, htr, hte, hu]
      · rcases hsm : summarize_transcript env t with ⟨sm, uiSm, reqs⟩
        cases sm <;> cases hu : env.unlinkExn <;>
          simp [runPipeline, save_uploaded_file, runBody, transcribe_audio, fsRead,
                hs, htr, hte, hu, hsm]

theorem pipeline_summarizeCalls_le (env : Env) (fs0 : FS) (up : UploadedFile) :
    (runPipeline env fs0 up).summarizeCalls ≤ 1 := by
  cases hs : env.stagingExn with
  | some m => simp [runPipeline, save_uploaded_file, hs]
  | none =>
    cases htr : env.transcribeSvc with
    | raise m =>
      cases hu : env.unlinkExn <;>
        simp [runPipeline, save_uploaded_file, runBody, transcribe_audio, fsRead, hs, htr, hu]
    | ok t =>
      by_cases hte : t = ""
      · cases hu : env.unlinkExn <;>
          simp [runPipeline, save_uploaded_file, runBody, transcribe_audio, fsRead,
                hs, htr, hte, hu]
      · rcases hsm : summarize_transcript env t with ⟨sm, uiSm, reqs⟩
        cases sm <;> cases hu : env.unlinkExn <;>
          simp [runPipeline, save_uploaded_file, runBody, transcribe_audio, fsRead,
                hs, htr, hte, hu, hsm]

/-- Every branch of `summarize_transcript` sends exactly the one templated
request. -/
theorem summarize_sends_one_request (env : Env) (t : String) :
    (summarize_transcript env t).2.2 = [mkChatRequest t] := by
  cases hc : env.chatSvc (mkChatRequest t) with
  | raise m => simp [summarize_transcript, hc]
  | ok content =>
    cases content with
    | none => simp [summarize_transcript, hc]
    | some s => by_cases hse : s = "" <;> simp [summarize_transcript, hc, hse]

/-- C1: for every run that reaches a terminal state (`Done` or `Failed`), the
cleanup attempt on the staged temporary file happens exactly once, regardless
of which stage succeeded or failed. -/
theorem cleanup_invoked_exactly_once_on_terminal (env : Env) (fs0 : FS) (up : UploadedFile)
    (h : runState env fs0 up = SpecState.done ∨
         ∃ c, runState env fs0 up = SpecState.failed c) :
    (runPipeline env fs0 up).cleanupCalls = 1 := by
  cases hs : env.stagingExn with
  | some m =>
    exfalso
    have hidle : runState env fs0 up = SpecState.idle := by
      simp [runState, runPipeline, save_uploaded_file, hs]
    rcases h with h | ⟨c, h⟩ <;> rw [hidle] at h <;> simp at h
  | none =>
    cases hu : env.unlinkExn <;>
      simp [runPipeline, save_uploaded_file, hs, hu, runBody_cleanupCalls]

/-- C1 witness: the fully successful run reaches `Done` and cleans up once. -/
theorem cleanup_invoked_exactly_once_on_terminal_witness :
    (runState envDone [] upWav = SpecState.done ∨
      ∃ c, runState envDone [] upWav = SpecState.failed c) ∧
    (runPipeline envDone [] upWav).cleanupCalls = 1 :=
  ⟨Or.inl rfl, cleanup_invoked_exactly_once_on_terminal envDone [] upWav (Or.inl rfl)⟩

/-- C2: when the transcription service returns the empty string, the run fails
with cause "empty transcription" and the summarization service is never
invoked. -/
theorem empty_transcription_fails_without_summarization (env : Env) (fs0 : FS)
    (up : UploadedFile) (hs : env.stagingExn = none)
    (ht : env.transcribeSvc = TResp.ok "") :
    runState env fs0 up = SpecState.failed Cause.emptyTranscription ∧
    (runPipeline env fs0 up).summarizeCalls = 0 ∧
    (runPipeline env fs0 up).sentRequests = [] := by
  cases hu : env.unlinkExn <;>
    simp [runState, runPipeline, save_uploaded_file, runBody, transcribe_audio,
          fsRead, hs, ht, hu]

/-- C2 witness at a concrete run whose transcription result is `""`. -/
theorem empty_transcription_fails_without_summarization_witness :
    envEmptyT.stagingExn = none ∧ envEmptyT.transcribeSvc = TResp.ok "" ∧
    runState envEmptyT [] upWav = SpecState.failed Cause.emptyTranscription ∧
    (runPipeline envEmptyT [] upWav).summarizeCalls = 0 :=
  ⟨rfl, rfl,
    (empty_transcription_fails_without_summarization envEmptyT [] upWav rfl rfl).1,
    (empty_transcription_fails_without_summarization envEmptyT [] upWav rfl rfl).2.1⟩

/-- C7: when staging itself fails, the failure is reported, the run ends
(staying in `Idle` per the spec machine) and neither remote service is
invoked. -/
theorem staging_failure_invokes_no_later_stage (env : Env) (fs0 : FS)
    (up : UploadedFile) (m : String) (hs : env.stagingExn = some m) :
    UiMsg.error ("Error saving file: " ++ m) ∈ (runPipeline env fs0 up).ui ∧
    UiMsg.error "Failed to process uploaded file. Please try again." ∈
      (runPipeline env fs0 up).ui ∧
    runState env fs0 up = SpecState.idle ∧
    (runPipeline env fs0 up).transcribeCalls = 0 ∧
    (runPipeline env fs0 up).summarizeCalls = 0 := by
  simp [runState, runPipeline, save_uploaded_file, hs]

/-- C7 witness: a concrete disk-full staging failure. -/
theorem staging_failure_invokes_no_later_stage_witness :
    envStageFail.stagingExn = some "disk full" ∧
    runState envStageFail [] upWav = SpecState.idle ∧
    (runPipeline envStageFail [] upWav).transcribeCalls = 0 ∧
    (runPipeline envStageFail [] upWav).summarizeCalls = 0 :=
  ⟨rfl, (staging_failure_invokes_no_later_stage envStageFail [] upWav "disk full" rfl).2.2.1,
    (staging_failure_invokes_no_later_stage envStageFail [] upWav "disk full" rfl).2.2.2.1,
    (staging_failure_invokes_no_later_stage envStageFail [] upWav "disk full" rfl).2.2.2.2⟩

/-- C10: when staging fails no deletion is attempted at all: zero cleanup
calls and the filesystem is untouched. -/
theorem no_cleanup_when_staging_fails (env : Env) (fs0 : FS) (up : UploadedFile)
    (m : String) (hs : env.stagingExn = some m) :
    (runPipeline env fs0 up).cleanupCalls = 0 ∧
    (runPipeline env fs0 up).fs = fs0 := by
  simp [runPipeline, save_uploaded_file, hs]

/-- C10 witness: the disk-full run performs zero cleanup calls. -/
theorem no_cleanup_when_staging_fails_witness :
    envStageFail.stagingExn = some "disk full" ∧
    (runPipeline envStageFail [] upWav).cleanupCalls = 0 ∧
    (runPipeline envStageFail [] upWav).fs = [] :=
  ⟨rfl, (no_cleanup_when_staging_fails envStageFail [] upWav "disk full" rfl).1,
    (no_cleanup_when_staging_fails envStageFail [] upWav "disk full" rfl).2⟩

/-- C3: when transcription succeeds but the summarization call fails (remote
error, null or empty result), the transcript is still rendered and a
summarization-specific failure is reported — a partial success, not a
rollback. -/
theorem summarization_failure_preserves_transcript (env : Env) (fs0 : FS)
    (up : UploadedFile) (t : String)
    (hs : env.stagingExn = none)
    (ht : env.transcribeSvc = TResp.ok t) (htne : t ≠ "")
    (hsum : (∃ m, env.chatSvc (mkChatRequest t) = CResp.raise m) ∨
            env.chatSvc (mkChatRequest t) = CResp.ok none ∨
            env.chatSvc (mkChatRequest t) = CResp.ok (some "")) :
    (runPipeline env fs0 up).transcriptShown = some t ∧
    UiMsg.textArea "Full Transcript" t ∈ (runPipeline env fs0 up).ui ∧
    (runState env fs0 up = SpecState.failed Cause.summarizationFailed ∨
     runState env fs0 up = SpecState.failed Cause.emptySummary) ∧
    UiMsg.error "Failed to generate summary. Please try again." ∈
      (runPipeline env fs0 up).ui := by
  rcases hsum with ⟨m, hc⟩ | hc | hc <;>
    cases hu : env.unlinkExn <;>
      simp [runState, runPipeline, save_uploaded_file, runBody, transcribe_audio, fsRead,
            summarize_transcript, hs, ht, htne, hc, hu]

/-- C3 witness: a concrete run whose chat call raises a network error. -/
theorem summarization_failure_preserves_transcript_witness :
    (runPipeline envChatRaise [] upWav).transcriptShown =
      some "Hello team, quarterly numbers are up." ∧
    (runState envChatRaise [] upWav = SpecState.failed Cause.summarizationFailed ∨
     runState envChatRaise [] upWav = SpecState.failed Cause.emptySummary) :=
  ⟨(summarization_failure_preserves_transcript envChatRaise [] upWav
      "Hello team, quarterly numbers are up." rfl rfl (by decide)
      (Or.inl ⟨"network error", rfl⟩)).1,
   (summarization_failure_preserves_transcript envChatRaise [] upWav
      "Hello team, quarterly numbers are up." rfl rfl (by decide)
      (Or.inl ⟨"network error", rfl⟩)).2.2.1⟩

/-- C4: contrary to the claim, when OPENAI_API_KEY is absent the client
constructor raises at line 8 and aborts the script run before the line-114
banner check can execute, so no banner is rendered; the banner fires only in
the unrelated present-but-empty-key case. -/
theorem missing_api_key_aborts_before_banner :
    runScript none none [] =
      ScriptOutcome.exn
        "The api_key client option must be set either by passing api_key to the client or by setting the OPENAI_API_KEY environment variable" ∧
    runScript (some "") none [] = ScriptOutcome.ok none true := by
  constructor <;> rfl

/-- C5: for every byte buffer and filename with extension .mp3/.wav/.m4a,
staging returns the path of a readable temp file whose bytes equal the buffer
and whose extension matches the original filename's. -/
theorem staging_writes_identical_bytes_with_matching_suffix (env : Env) (fs0 : FS)
    (up : UploadedFile)
    (hs : env.stagingExn = none) (hstem : validStem env.tmpStem)
    (_hbuf : up.content ≠ [])
    (hext : pathSuffix up.name ∈ [".mp3".data, ".wav".data, ".m4a".data]) :
    ∃ p, (save_uploaded_file env fs0 up).1 = some p ∧
      fsRead (save_uploaded_file env fs0 up).2.1 p = some up.content ∧
      pathSuffix p = pathSuffix up.name := by
  obtain ⟨hb, hd⟩ := hstem
  refine ⟨env.tmpStem ++ pathSuffix up.name, ?_, ?_, ?_⟩
  · simp [save_uploaded_file, hs]
  · simp [save_uploaded_file, hs, fsRead]
  · simp only [List.mem_cons, List.not_mem_nil, or_false] at hext
    rcases hext with h | h | h <;> rw [h] <;>
      exact pathSuffix_stem_append _ _ hb hd (by decide) (by decide) (by decide)

/-- C5 witness: staging `call.wav` with a concrete stem yields a `.wav` temp
file with the same bytes. -/
theorem staging_writes_identical_bytes_with_matching_suffix_witness :
    envDone.stagingExn = none ∧ upWav.content ≠ [] ∧
    pathSuffix upWav.name ∈ [".mp3".data, ".wav".data, ".m4a".data] ∧
    (∃ p, (save_uploaded_file envDone [] upWav).1 = some p ∧
      fsRead (save_uploaded_file envDone [] upWav).2.1 p = some upWav.content ∧
      pathSuffix p = pathSuffix upWav.name) :=
  ⟨rfl, by decide, by decide,
    staging_writes_identical_bytes_with_matching_suffix envDone [] upWav rfl
      ⟨by decide, by decide⟩ (by decide) (by decide)⟩

/-- C6: every stage failure is caught at its origin and surfaced as a UI
message, no stage is retried (at most one remote call each), the script run
never aborts once the client is constructed, and a subsequent upload is
processed normally. -/
theorem failures_caught_and_process_continues (k : String) (env : Env) (fs0 : FS)
    (up : UploadedFile) :
    (∃ ropt b, runScript (some k) (some (env, up)) fs0 = ScriptOutcome.ok ropt b) ∧
    (runPipeline env fs0 up).transcribeCalls ≤ 1 ∧
    (runPipeline env fs0 up).summarizeCalls ≤ 1 ∧
    (∀ m, env.stagingExn = some m →
      UiMsg.error ("Error saving file: " ++ m) ∈ (runPipeline env fs0 up).ui) ∧
    (∀ m, env.stagingExn = none → env.transcribeSvc = TResp.raise m →
      UiMsg.error ("Transcription error: " ++ m) ∈ (runPipeline env fs0 up).ui) ∧
    (∀ t m, env.stagingExn = none → env.transcribeSvc = TResp.ok t → t ≠ "" →
      env.chatSvc (mkChatRequest t) = CResp.raise m →
      UiMsg.error ("Summarization error: " ++ m) ∈ (runPipeline env fs0 up).ui) ∧
    (∀ env2 up2 fs2, ∃ b, runScript (some k) (some (env2, up2)) fs2 =
      ScriptOutcome.ok (some (runPipeline env2 fs2 up2)) b) := by
  refine ⟨⟨some (runPipeline env fs0 up), _, rfl⟩,
    pipeline_transcribeCalls_le env fs0 up,
    pipeline_summarizeCalls_le env fs0 up, ?_, ?_, ?_, ?_⟩
  · intro m hs
    simp [runPipeline, save_uploaded_file, hs]
  · intro m hs htr
    cases hu : env.unlinkExn <;>
      simp [runPipeline, save_uploaded_file, runBody, transcribe_audio, fsRead, hs, htr, hu]
  · intro t m hs htr htne hc
    cases hu : env.unlinkExn <;>
      simp [runPipeline, save_uploaded_file, runBody, transcribe_audio, fsRead,
            summarize_transcript, hs, htr, htne, hc, hu]
  · intro env2 up2 fs2
    exact ⟨_, rfl⟩

/-- C6 witness: with a key configured, a failing run still completes the
script and renders the staging error. -/
theorem failures_caught_and_process_continues_witness :
    (∃ ropt b, runScript (some "k1") (some (envStageFail, upWav)) [] =
      ScriptOutcome.ok ropt b) ∧
    UiMsg.error ("Error saving file: " ++ "disk full") ∈
      (runPipeline envStageFail [] upWav).ui :=
  ⟨(failures_caught_and_process_continues "k1" envStageFail [] upWav).1,
   (failures_caught_and_process_continues "k1" envStageFail [] upWav).2.2.2.1
      "disk full" rfl⟩

/-- C8: every run reaching the summarization stage sends exactly one chat
request: a single user message holding the fixed template, a blank line and
the transcript, with temperature 0.7 and a 500-token output cap. -/
theorem summarization_request_is_fixed_template (env : Env) (fs0 : FS)
    (up : UploadedFile) (t : String)
    (hs : env.stagingExn = none) (ht : env.transcribeSvc = TResp.ok t)
    (htne : t ≠ "") :
    (runPipeline env fs0 up).sentRequests =
      [{ model := "gpt-4-turbo-preview",
         messages := [{ role := "user", content := "Please summarize the following meeting transcript into 5 key bullet points:\n\n" ++ t }],
         temperature := 7/10,
         max_tokens := 500 }] := by
  have hreq : (summarize_transcript env t).2.2 = [mkChatRequest t] :=
    summarize_sends_one_request env t
  rcases hsm : summarize_transcript env t with ⟨sm, uiSm, reqs⟩
  rw [hsm] at hreq
  simp only at hreq
  cases sm <;> cases hu : env.unlinkExn <;>
    simp [runPipeline, save_uploaded_file, runBody, transcribe_audio, fsRead,
          hs, ht, htne, hu, hsm, hreq, mkChatRequest, summaryPrompt]

/-- C8 witness: the successful concrete run sends exactly the templated
request for its transcript. -/
theorem summarization_request_is_fixed_template_witness :
    (runPipeline envDone [] upWav).sentRequests =
      [{ model := "gpt-4-turbo-preview",
         messages := [{ role := "user", content := "Please summarize the following meeting transcript into 5 key bullet points:\n\nHello team, quarterly numbers are up." }],
         temperature := 7/10,
         max_tokens := 500 }] := by
  have h := summarization_request_is_fixed_template envDone [] upWav
    "Hello team, quarterly numbers are up." rfl rfl (by decide)
  rw [h]
  rfl

/-- C9: the non-emptiness checks are truthiness checks, not content
validation: any non-empty string — whitespace-only included — is accepted and
the pipeline proceeds; only the empty string (or an absent result) fails. -/
theorem whitespace_results_accepted_by_truthiness (env : Env) (fs0 : FS)
    (up : UploadedFile) (t s : String)
    (hs : env.stagingExn = none)
    (ht : env.transcribeSvc = TResp.ok t) (htne : t ≠ "")
    (hc : env.chatSvc (mkChatRequest t) = CResp.ok (some s)) (hsne : s ≠ "") :
    runState env fs0 up = SpecState.done ∧
    (runPipeline env fs0 up).transcriptShown = some t ∧
    (runPipeline env fs0 up).summaryShown = some s ∧
    (runPipeline env fs0 up).summarizeCalls = 1 := by
  cases hu : env.unlinkExn <;>
    simp [runState, runPipeline, save_uploaded_file, runBody, transcribe_audio, fsRead,
          summarize_transcript, hs, ht, htne, hc, hsne, hu]

/-- C9 witness: a run whose transcript and summary are the single space `" "`
still reaches `Done` with both shown. -/
theorem whitespace_results_accepted_by_truthiness_witness :
    runState envWhitespace [] upWav = SpecState.done ∧
    (runPipeline envWhitespace [] upWav).transcriptShown = some " " ∧
    (runPipeline envWhitespace [] upWav).summaryShown = some " " :=
  ⟨(whitespace_results_accepted_by_truthiness envWhitespace [] upWav " " " "
      rfl rfl (by decide) rfl (by decide)).1,
   (whitespace_results_accepted_by_truthiness envWhitespace [] upWav " " " "
      rfl rfl (by decide) rfl (by decide)).2.1,
   (whitespace_results_accepted_by_truthiness envWhitespace [] upWav " " " "
      rfl rfl (by decide) rfl (by decide)).2.2.1⟩
